import Mathlib

/-!
Verification development for the trusted-setup coordinator scripts
(`scripts/trusted_setup.py`, `scripts/initialize_trusted_setup.py`,
`scripts/e2e_test.py`) of succinctlabs/semaphore-gnark-11.

The scripts are shallowly embedded: the local filesystem is an explicit
association list from path to file contents, every invocation of the external
Go engine binary is recorded as an argv list in the returned trace, and Python
exceptions become an explicit `Except PyError` result.  Process stdout is
modelled at line granularity (Python reads `result.stdout` and immediately
splits it on newlines).  The Go engine itself is not part of the Python
sources; wherever its behaviour decides a property, the corresponding
definition is modelled from the specification and marked as such in its
doc comment.
-/

/-- Python exception values raised by the scripts: `ValueError`,
`RuntimeError`, `NameError` (unbound identifier) and `TypeError`
(bad call, e.g. an unexpected keyword argument). -/
inductive PyError where
  | valueError (msg : String)
  | runtimeError (msg : String)
  | nameError (msg : String)
  | typeError (msg : String)
deriving DecidableEq, Repr

/-- The local filesystem, as an association list from path to file contents.
`Path.exists()` checks in the scripts become lookups in this map. -/
abbrev FS := List (String × String)

/-- Embedding of Python `Path(p).exists()` against the filesystem model. -/
def fsExists (fs : FS) (p : String) : Bool :=
  (List.lookup p fs).isSome

/-- Embedding of `REPO_ROOT = Path(__file__).parent.parent`; the concrete
directory name is irrelevant to every property below. -/
def REPO_ROOT : String := "."

/-- Embedding of `BINARY = REPO_ROOT / "semaphore-gnark-11"`. -/
def BINARY : String := REPO_ROOT ++ "/semaphore-gnark-11"

/-- Python call semantics for keyword arguments: a call is accepted exactly
when every keyword argument names a parameter of the callee; otherwise the
call raises `TypeError` before the callee body runs. -/
def pyCallKwargsOk (params kwargs : List String) : Bool :=
  kwargs.all (fun k => params.contains k)

/-- Helper for the Python string operations below: locate the first
occurrence of the (non-empty) separator `sep` in `s`, returning the text
before it and the text after it. -/
def splitFirst (sep : List Char) : List Char → Option (List Char × List Char)
  | [] => none
  | c :: rest =>
    if sep.isPrefixOf (c :: rest) then some ([], (c :: rest).drop sep.length)
    else
      match splitFirst sep rest with
      | none => none
      | some (pre, post) => some (c :: pre, post)

/-- Python `s.split(sep)` for a non-empty separator, with explicit fuel
(each recursive call consumes at least one character, so `s.length + 1`
steps always suffice). -/
def pySplitGo (sep : List Char) : Nat → List Char → List (List Char)
  | 0, s => [s]
  | fuel + 1, s =>
    match splitFirst sep s with
    | none => [s]
    | some (pre, post) => pre :: pySplitGo sep fuel post

/-- Python `s.split(sep)` for a non-empty separator. -/
def pySplit (sep s : List Char) : List (List Char) :=
  pySplitGo sep (s.length + 1) s

/-- Python `s.split(sep, 1)`: split at the first occurrence only. -/
def pySplit1 (sep s : List Char) : List (List Char) :=
  match splitFirst sep s with
  | none => [s]
  | some (pre, post) => [pre, post]

/-- Python `s.strip()`: drop leading and trailing whitespace. -/
def pyStrip (s : List Char) : List Char :=
  ((s.dropWhile Char.isWhitespace).reverse.dropWhile Char.isWhitespace).reverse

/-- Python `int(s)` on a plain decimal digit string (an optional sign after
optional surrounding whitespace); exotic accepted forms such as underscore
digit grouping are not modelled — the engine prints plain decimals. -/
def pyIntDigits (cs : List Char) : Option Nat :=
  if !cs.isEmpty && cs.all Char.isDigit then
    some (cs.foldl (fun a c => 10 * a + (c.toNat - 48)) 0)
  else none

/-- Python `int(s)`, raising (returning `none`) on malformed input. -/
def pyInt (s : List Char) : Option Int :=
  match pyStrip s with
  | '+' :: rest => (pyIntDigits rest).map (fun n => (n : Int))
  | '-' :: rest => (pyIntDigits rest).map (fun n => -(n : Int))
  | t => (pyIntDigits t).map (fun n => (n : Int))

/-- Python substring test `needle in line`, for a non-empty needle. -/
def pyContains (needle line : String) : Bool :=
  (splitFirst needle.data line.data).isSome

/-- The contributor message template shared verbatim by
`trusted_setup.py` and `initialize_trusted_setup.py`, with the three
format fields substituted. -/
def MESSAGE_TEMPLATE (index url bucket_name : String) : String :=
  "Hey, you have been chosen to perform contribution #" ++ index ++
  " to the trusted setup!\n\n```bash\ngit clone https://github.com/succinctlabs/semaphore-gnark-11.git\ncd semaphore-gnark-11\ngo build\nmkdir trusted-setup\n\n./semaphore-gnark-11 p2c \"" ++
  url ++ "\" " ++ bucket_name ++ "\n```\n\nDon\x27t hesitate if you have any questions.\n"

namespace TrustedSetup

/-- Embedding of `PTAU_BASE_URL` in `trusted_setup.py`. -/
def PTAU_BASE_URL : String := "https://storage.googleapis.com/zkevm/ptau"

/-- Python `f"{log2:02d}"`: decimal rendering zero-padded to width two. -/
def pyFormat02d (n : Nat) : String :=
  if n < 10 then "0" ++ Nat.repr n else Nat.repr n

/-- Embedding of `get_ptau_url` in `trusted_setup.py`. -/
def get_ptau_url (log2 : Nat) : String :=
  PTAU_BASE_URL ++ "/powersOfTau28_hez_final_" ++ pyFormat02d log2 ++ ".ptau"

/-- Embedding of `get_ptau_filename` in `trusted_setup.py`. -/
def get_ptau_filename (log2 : Nat) : String :=
  "powersOfTau28_hez_final_" ++ pyFormat02d log2 ++ ".ptau"

/-- Embedding of `download_ptau` in `trusted_setup.py`.  Returns the new
filesystem and the list of URLs fetched over the network; `fetched` stands
for the bytes the network would deliver.  If the file already exists the
function returns immediately with no network activity. -/
def download_ptau (fetched : String) (fs : FS) (ptau_path : String) (log2 : Nat) :
    FS × List String :=
  if fsExists fs ptau_path then (fs, [])
  else ((ptau_path, fetched) :: fs, [get_ptau_url log2])

/-- Embedding of `phase1_import` in `trusted_setup.py`.  Returns the new
filesystem and the trace of engine invocations; `engineOut` stands for the
artifact bytes the engine command `p1i` writes to `phase1_path`.  If the
phase1 artifact already exists the function returns immediately without
invoking the engine. -/
def phase1_import (engineOut : String) (fs : FS) (ptau_path phase1_path : String) :
    FS × List (List String) :=
  if fsExists fs phase1_path then (fs, [])
  else ((phase1_path, engineOut) :: fs, [[BINARY, "p1i", ptau_path, phase1_path]])

/-- Embedding of `phase2_init` in `trusted_setup.py`.  The existence check on
`phase2_path` comes first; only afterwards is `beacon_round` validated, and a
non-positive round raises `ValueError`.  `engineOut`/`evalsOut` stand for the
artifact bytes the engine command `p2n` writes. -/
def phase2_init (engineOut evalsOut : String) (fs : FS)
    (phase1_path circuit_path phase2_path evals_path : String)
    (beacon_round : Int) : Except PyError (FS × List (List String)) :=
  if fsExists fs phase2_path then .ok (fs, [])
  else if beacon_round ≤ 0 then
    .error (.valueError "beacon_round must be set to a positive drand round")
  else
    .ok ((phase2_path, engineOut) :: (evals_path, evalsOut) :: fs,
      [[BINARY, "p2n", "--beacon-round", toString beacon_round,
        phase1_path, circuit_path, phase2_path, evals_path]])

/-- Python `line.split(":")[-1].strip()`: the text after the last colon of
the line, stripped of surrounding whitespace. -/
def afterLastColon (line : String) : String :=
  (pyStrip ((pySplit [':'] line.data).getLast!)).asString

/-- The scan loop in `phase2_contribute` over the lines of the engine's
stdout: return the parsed hash from the first line containing
`"Contribution Hash:"`, or raise `RuntimeError` when no line does. -/
def parseContributionHash : List String → Except PyError String
  | [] => .error (.runtimeError "Could not find contribution hash in output")
  | line :: rest =>
    if pyContains "Contribution Hash:" line then .ok (afterLastColon line)
    else parseContributionHash rest

/-- Embedding of `phase2_contribute` in `trusted_setup.py`, as a function of
the engine process outcome: `run_cmd` raises `RuntimeError` on a non-zero
exit code, and otherwise the stdout lines are scanned for the hash. -/
def phase2_contribute (returncode : Int) (stdoutLines : List String) :
    Except PyError String :=
  if returncode != 0 then
    .error (.runtimeError ("Command failed with exit code " ++ toString returncode))
  else parseContributionHash stdoutLines

/-- The parameter list of `extract_keys` in `trusted_setup.py` — note it has
no beacon-round parameters. -/
def extract_keys_params : List String :=
  ["phase1_path", "phase2_path", "evals_path", "circuit_path", "env"]

/-- The top-level names bound in the module `trusted_setup.py` (its imports
and its module-level definitions) — the globals visible inside
`extract_keys`. -/
def module_globals : List String :=
  ["os", "subprocess", "urllib", "Path", "REPO_ROOT", "BINARY",
   "PTAU_BASE_URL", "MESSAGE_TEMPLATE", "run_cmd", "get_ptau_url",
   "get_ptau_filename", "download_ptau", "build_binary", "generate_r1cs",
   "phase1_import", "phase2_init", "phase2_upload",
   "generate_presigned_urls", "phase2_contribute", "phase2_verify",
   "extract_keys", "generate_messages"]

/-- Python name resolution inside the body of `extract_keys`: a name is in
scope iff it is one of the function's parameters or a module global. -/
def nameInScope (n : String) : Bool :=
  extract_keys_params.contains n || module_globals.contains n

/-- Embedding of `extract_keys` in `trusted_setup.py`.  Its first statement
evaluates `phase1_beacon_round <= 0 or phase2_beacon_round <= 0` left to
right; each identifier is resolved against the scope above and raises
`NameError` when unbound.  `valueOf` supplies the value a resolved name
would have, which is irrelevant whenever resolution fails.  A successful run
would invoke the engine `key` command. -/
def extract_keys (phase1_path phase2_path evals_path circuit_path : String)
    (valueOf : String → Int) : Except PyError (List (List String)) :=
  if !nameInScope "phase1_beacon_round" then
    .error (.nameError "name phase1_beacon_round is not defined")
  else if valueOf "phase1_beacon_round" ≤ 0 then
    .error (.valueError
      "phase1_beacon_round and phase2_beacon_round must be set to positive drand rounds")
  else if !nameInScope "phase2_beacon_round" then
    .error (.nameError "name phase2_beacon_round is not defined")
  else if valueOf "phase2_beacon_round" ≤ 0 then
    .error (.valueError
      "phase1_beacon_round and phase2_beacon_round must be set to positive drand rounds")
  else
    .ok [[BINARY, "key", phase1_path, phase2_path, evals_path, circuit_path]]

/-- Embedding of `generate_messages` in `trusted_setup.py`: one message file
per grant, with `contributor_num = index + 1` used both in the file name
`msg{contributor_num}.txt` and as the number rendered into the message. -/
def generate_messages (bucket_name : String) (urls : List (Int × String)) :
    List (String × String) :=
  urls.map (fun p =>
    ("msg" ++ toString (p.1 + 1) ++ ".txt",
     MESSAGE_TEMPLATE (toString (p.1 + 1)) p.2 bucket_name))

end TrustedSetup

/-- One line of the engine's `presigned` output: `"{i}: {grant}"`. -/
def presignedLine (i : Nat) (grant : String) : String :=
  Nat.repr i ++ ": " ++ grant

/-- Modelled from the spec: the Go engine (not part of the Python sources)
prints, for `presigned <bucket> <count>`, one line `i: <grant>` per index
`i = 0 .. count-1` — the ordered `(index, grant)` mapping of the Access
Grant Issuer, indices `0..count-1`. -/
def enginePresignedLines (grant : Nat → String) (count : Nat) : List String :=
  (List.range count).map (fun i => presignedLine i (grant i))

/-- Parsing of one presigned-output line, as in both scripts'
`generate_presigned_urls`: `index_str, url = line.split(": ", 1)` (raising
`ValueError` when the line has no `": "`), then `int(index_str)`. -/
def parsePresignedLine (line : String) : Except PyError (Int × String) :=
  match pySplit1 ": ".data line.data with
  | [index_str, url] =>
    match pyInt index_str with
    | none => .error (.valueError ("invalid literal for int: " ++ index_str.asString))
    | some i => .ok (i, url.asString)
  | _ => .error (.valueError "not enough values to unpack")

/-- The parse loop of `generate_presigned_urls` over the stdout lines:
empty lines are skipped, every other line is parsed in order, and the first
failure aborts the whole call. -/
def parsePresignedLines : List String → Except PyError (List (Int × String))
  | [] => .ok []
  | line :: rest =>
    if line = "" then parsePresignedLines rest
    else
      match parsePresignedLine line, parsePresignedLines rest with
      | .ok p, .ok ps => .ok (p :: ps)
      | .error e, _ => .error e
      | .ok _, .error e => .error e

/-- Embedding of `generate_presigned_urls` (identical in both scripts):
run the engine's `presigned` command for `count` grants and parse its
output back into an ordered `(index, url)` list. -/
def generate_presigned_urls (grant : Nat → String) (count : Nat) :
    Except PyError (List (Int × String)) :=
  parsePresignedLines (enginePresignedLines grant count)

/-- A presigned-output line round-trips through the parser: the split at the
first `": "` yields exactly the decimal index part and the grant (true
whenever the grant text contains no `": "` of its own), and the decimal
index re-parses to itself.  Both conditions are decidable and hold for the
URLs the engine emits. -/
def grantLineWF (i : Nat) (g : String) : Prop :=
  pySplit1 ": ".data (presignedLine i g).data = [(Nat.repr i).data, g.data] ∧
    pyInt (Nat.repr i).data = some (Int.ofNat i)

/-- All engine grant lines up to `count` round-trip through the parser. -/
def presignedWF (grant : Nat → String) (count : Nat) : Prop :=
  ∀ i, i < count → grantLineWF i (grant i)

instance (i : Nat) (g : String) : Decidable (grantLineWF i g) := by
  unfold grantLineWF; infer_instance

instance (grant : Nat → String) (count : Nat) :
    Decidable (presignedWF grant count) := by
  unfold presignedWF; infer_instance

namespace InitSetup

/-- Embedding of `NB_CONSTRAINTS_LOG2 = 24` in `initialize_trusted_setup.py`. -/
def NB_CONSTRAINTS_LOG2 : Nat := 24

/-- The f-string building `PTAU_URL` in `initialize_trusted_setup.py`, as a
function of the interpolated exponent — note the field `{NB_CONSTRAINTS_LOG2}`
carries no width/zero-padding format spec. -/
def PTAU_URL_of (n : Nat) : String :=
  "https://storage.googleapis.com/zkevm/ptau/powersOfTau28_hez_final_" ++
    Nat.repr n ++ ".ptau"

/-- Embedding of `PTAU_URL` in `initialize_trusted_setup.py`. -/
def PTAU_URL : String := PTAU_URL_of NB_CONSTRAINTS_LOG2

/-- The f-string building `PTAU_FILENAME` in `initialize_trusted_setup.py`,
as a function of the interpolated exponent. -/
def PTAU_FILENAME_of (n : Nat) : String :=
  "powersOfTau28_hez_final_" ++ Nat.repr n ++ ".ptau"

/-- Embedding of `PTAU_FILENAME` in `initialize_trusted_setup.py`. -/
def PTAU_FILENAME : String := PTAU_FILENAME_of NB_CONSTRAINTS_LOG2

/-- Embedding of `TRUSTED_SETUP_DIR / "phase1"` etc. in
`initialize_trusted_setup.py`, which hardcodes its artifact paths. -/
def PHASE1_PATH : String := "trusted-setup/phase1"

/-- Embedding of the hardcoded phase2 artifact path. -/
def PHASE2_PATH : String := "trusted-setup/phase2"

/-- Embedding of the hardcoded evals artifact path. -/
def EVALS_PATH : String := "trusted-setup/evals"

/-- The parameter list of `run_cmd` in `initialize_trusted_setup.py` — unlike
the `trusted_setup.py` helper of the same name, it accepts no `cwd` and no
`env` keyword. -/
def run_cmd_params : List String := ["cmd", "capture_output"]

/-- Embedding of `build_binary` in `initialize_trusted_setup.py`.  When the
binary is absent it calls `run_cmd(["go", "build"], cwd=REPO_ROOT)`; the
keyword argument `cwd` is not a parameter of this script's `run_cmd`, so the
call raises `TypeError` before any subprocess runs.  `goBuild` stands for the
filesystem effect a `go build` would have. -/
def build_binary (goBuild : FS → FS) (fs : FS) :
    Except PyError (FS × List (List String)) :=
  if fsExists fs BINARY then .ok (fs, [])
  else if !pyCallKwargsOk run_cmd_params ["cwd"] then
    .error (.typeError "run_cmd() got an unexpected keyword argument cwd")
  else
    let fs2 := goBuild fs
    if fsExists fs2 BINARY then .ok (fs2, [["go", "build"]])
    else .error (.runtimeError ("Binary not found after build: " ++ BINARY))

/-- Embedding of `run_phase2_init` in `initialize_trusted_setup.py`: skip if
the phase2 artifact exists, otherwise invoke the engine `p2n` command — with
no beacon-round validation and no `--beacon-round` argument at all.
`engineOut`/`evalsOut` stand for the artifact bytes the engine writes. -/
def run_phase2_init (engineOut evalsOut : String) (fs : FS)
    (circuit_path : String) : FS × List (List String) :=
  if fsExists fs PHASE2_PATH then (fs, [])
  else ((PHASE2_PATH, engineOut) :: (EVALS_PATH, evalsOut) :: fs,
    [[BINARY, "p2n", PHASE1_PATH, circuit_path, PHASE2_PATH, EVALS_PATH]])

/-- Embedding of `generate_messages` in `initialize_trusted_setup.py`: the
loop skips index 0 (`continue`) and for every other grant writes
`msg{index}.txt`, rendering the grant's index itself — not index + 1 — into
the message. -/
def generate_messages (bucket_name : String) (urls : List (Int × String)) :
    List (String × String) :=
  (urls.filter (fun p => p.1 != 0)).map (fun p =>
    ("msg" ++ toString p.1 ++ ".txt",
     MESSAGE_TEMPLATE (toString p.1) p.2 bucket_name))

/-- Embedding of the grant-issuance step of `main` in
`initialize_trusted_setup.py`: with expected contribution count
`contribution_count`, it requests `contribution_count + 1` presigned URLs
(source comment: "count + 1 because index 0 is initial upload"). -/
def main_issue_grants (grant : Nat → String) (contribution_count : Nat) :
    Except PyError (List (Int × String)) :=
  generate_presigned_urls grant (contribution_count + 1)

end InitSetup

namespace E2E

/-- Embedding of the grant-issuance step of `main` in `e2e_test.py`: it
requests exactly `NUM_CONTRIBUTIONS` presigned URLs ("Need exactly
NUM_CONTRIBUTIONS URLs (0 through NUM_CONTRIBUTIONS-1)"). -/
def main_issue_grants (grant : Nat → String) (num_contributions : Nat) :
    Except PyError (List (Int × String)) :=
  generate_presigned_urls grant num_contributions

/-- The sequence of indices `main` in `e2e_test.py` passes to
`phase2_verify`, assuming every contribution succeeded (otherwise the run
aborts before verification): `contribution_hashes` preserves the order of
the parsed presigned URLs, and the verify loop walks it front to back. -/
def verify_calls (grant : Nat → String) (num_contributions : Nat) :
    Except PyError (List Int) :=
  (main_issue_grants grant num_contributions).map (fun urls => urls.map Prod.fst)

/-- The verification loop of `main` in `e2e_test.py` over the recorded
indices, driven by the engine's exit code for `p2v <index>`: `run_cmd`
raises `RuntimeError` on the first non-zero exit, which propagates and ends
the loop.  Returns the indices actually passed to `phase2_verify` and the
error message of the raised exception, if any. -/
def verifyWalk (exitCode : Int → Int) : List Int → List Int × Option String
  | [] => ([], none)
  | i :: rest =>
    if exitCode i != 0 then
      ([i], some ("Command failed with exit code " ++ toString (exitCode i)))
    else
      let r := verifyWalk exitCode rest
      (i :: r.1, r.2)

/-- The process exit status of `main` in `e2e_test.py`: the top-level
`except` prints the failure and returns 1; otherwise 0. -/
def runStatus : Option String → Nat
  | none => 0
  | some _ => 1

/-- The keyword arguments `main` in `e2e_test.py` passes to `extract_keys`. -/
def extract_keys_call_kwargs : List String :=
  ["phase1_beacon_round", "phase2_beacon_round", "env"]

end E2E

namespace Engine

/-- Modelled from the spec: the Go engine's `p2v` transcript verification
(the engine is not part of the Python sources).  Verification state is the
count of already-verified indices (indices `0 .. verifiedCount-1`).
Verifying index `i` before index `i-1` has been verified is rejected as a
sequencing violation, independent of the cryptographic validity `valid` of
the contribution; otherwise the outcome is the engine's cryptographic
check. -/
def p2v (verifiedCount : Nat) (i : Nat) (valid : Bool) : Except PyError Nat :=
  if verifiedCount < i then
    .error (.runtimeError "sequencing violation: previous contribution not yet verified")
  else if valid then .ok (max verifiedCount (i + 1))
  else .error (.runtimeError "invalid contribution")

end Engine

/-- A concrete grant shape used to instantiate hypotheses on the engine's
presigned output at small sizes. -/
def exGrant (i : Nat) : String := "https://example/grant-" ++ Nat.repr i

theorem string_mk_data (g : String) : g.data.asString = g := rfl

/-- A well-formed presigned line is parsed back to its index and grant. -/
theorem parsePresignedLine_wf (i : Nat) (g : String) (h : grantLineWF i g) :
    parsePresignedLine (presignedLine i g) = .ok (Int.ofNat i, g) := by
  unfold parsePresignedLine
  rw [h.1]
  simp only [h.2]
  rfl

/-- A well-formed presigned line is not the empty string (the parse loop
would skip an empty line). -/
theorem presignedLine_ne_empty (i : Nat) (g : String) (h : grantLineWF i g) :
    presignedLine i g ≠ "" := by
  intro he
  have h1 := h.1
  rw [he] at h1
  simp [pySplit1, splitFirst] at h1

/-- The parse loop of `generate_presigned_urls`, run on the engine's output
for indices `s, s+1, …, s+n-1`, returns exactly those indices with their
grants, in order. -/
theorem parsePresignedLines_engine (grant : Nat → String) :
    ∀ (n s : Nat), (∀ i, s ≤ i → i < s + n → grantLineWF i (grant i)) →
    parsePresignedLines ((List.range' s n).map (fun i => presignedLine i (grant i))) =
      .ok ((List.range' s n).map (fun i => (Int.ofNat i, grant i))) := by
  intro n
  induction n with
  | zero => intro s _; rfl
  | succ m ih =>
    intro s h
    have hs : grantLineWF s (grant s) := h s le_rfl (by omega)
    have hne : presignedLine s (grant s) ≠ "" := presignedLine_ne_empty s (grant s) hs
    rw [List.range'_succ, List.map_cons, List.map_cons]
    simp only [parsePresignedLines, if_neg hne, parsePresignedLine_wf s (grant s) hs,
      ih (s + 1) (fun i h1 h2 => h i (by omega) (by omega))]

/-- `generate_presigned_urls` returns the grants for indices `0 .. count-1`
in ascending order whenever the engine's lines round-trip. -/
theorem generate_presigned_urls_wf (grant : Nat → String) (count : Nat)
    (h : presignedWF grant count) :
    generate_presigned_urls grant count =
      .ok ((List.range count).map (fun i => (Int.ofNat i, grant i))) := by
  unfold generate_presigned_urls enginePresignedLines
  rw [List.range_eq_range']
  exact parsePresignedLines_engine grant count 0
    (fun i _ h2 => h i (by omega))

/-- C1: the claim says `extract_keys` validates that both beacon rounds are
positive (raising the config error when not) and otherwise invokes the
engine's `key` command.  The code cannot do either: `phase1_beacon_round`
and `phase2_beacon_round` are neither parameters of `extract_keys` nor
module globals, so every call raises `NameError` at the validation line
before any engine invocation — and the call in `e2e_test.py` passes
`phase1_beacon_round=`/`phase2_beacon_round=` keyword arguments the
signature does not accept, raising `TypeError` at the call site.  The
intended validation is unreachable for every input. -/
theorem C1_extract_keys_unreachable_validation :
    (∀ (p1 p2 ev c : String) (valueOf : String → Int),
      TrustedSetup.extract_keys p1 p2 ev c valueOf =
        .error (.nameError "name phase1_beacon_round is not defined")) ∧
    pyCallKwargsOk TrustedSetup.extract_keys_params E2E.extract_keys_call_kwargs = false := by
  exact ⟨fun _ _ _ _ _ => rfl, rfl⟩

/-- C2 counterexample: with the phase2 artifact already on disk,
`phase2_init` called with beacon round 0 returns successfully — no
`ConfigError` and no engine call — because the existence check precedes the
beacon validation, contradicting "regardless of whether the target phase2
artifact already exists". -/
theorem C2_counterexample :
    TrustedSetup.phase2_init "p2bytes" "evbytes" [("trusted-setup/phase2", "blob")]
      "trusted-setup/phase1" "build/r1cs" "trusted-setup/phase2" "trusted-setup/evals" 0 =
      .ok ([("trusted-setup/phase2", "blob")], []) := rfl

/-- C2 (amended): only when the target phase2 artifact does not already
exist does a non-positive beacon round make `phase2_init` fail with the
config `ValueError` before any engine call; when the artifact exists the
call returns immediately with no error and no engine call, whatever the
beacon round.  The `run_phase2_init` variant in
`initialize_trusted_setup.py` performs no beacon validation at all: with
the artifact absent it invokes the engine `p2n` command without any
`--beacon-round` argument. -/
theorem C2_beacon_validation_only_when_absent
    (engineOut evalsOut : String) (fs : FS)
    (phase1_path circuit_path phase2_path evals_path : String) (beacon_round : Int)
    (habs : fsExists fs phase2_path = false) (hb : beacon_round ≤ 0) :
    TrustedSetup.phase2_init engineOut evalsOut fs phase1_path circuit_path
        phase2_path evals_path beacon_round =
      .error (.valueError "beacon_round must be set to a positive drand round") ∧
    (∀ (fs2 : FS) (b2 : Int), fsExists fs2 phase2_path = true →
      TrustedSetup.phase2_init engineOut evalsOut fs2 phase1_path circuit_path
          phase2_path evals_path b2 = .ok (fs2, [])) ∧
    (∀ (fs3 : FS) (c3 : String), fsExists fs3 InitSetup.PHASE2_PATH = false →
      (InitSetup.run_phase2_init engineOut evalsOut fs3 c3).2 =
        [[BINARY, "p2n", InitSetup.PHASE1_PATH, c3, InitSetup.PHASE2_PATH,
          InitSetup.EVALS_PATH]]) := by
  refine ⟨?_, ?_, ?_⟩
  · simp [TrustedSetup.phase2_init, habs, hb]
  · intro fs2 b2 hex
    simp [TrustedSetup.phase2_init, hex]
  · intro fs3 c3 h3
    simp [InitSetup.run_phase2_init, h3]

/-- C2 witness: the amended statement applied at an empty filesystem and
beacon round 0. -/
theorem C2_witness :
    fsExists [] "trusted-setup/phase2" = false ∧
    TrustedSetup.phase2_init "p2bytes" "evbytes" [] "trusted-setup/phase1"
        "build/r1cs" "trusted-setup/phase2" "trusted-setup/evals" 0 =
      .error (.valueError "beacon_round must be set to a positive drand round") :=
  ⟨by decide,
   (C2_beacon_validation_only_when_absent "p2bytes" "evbytes" []
      "trusted-setup/phase1" "build/r1cs" "trusted-setup/phase2"
      "trusted-setup/evals" 0 (by decide) (by decide)).1⟩

/-- C8 counterexample: at exponent 9 (the exponent the e2e test actually
uses), `trusted_setup.py` zero-pads (`…final_09.ptau`) while the
`initialize_trusted_setup.py` f-string does not (`…final_9.ptau`), so the
two constructions disagree — the claim's "for every exponent" fails. -/
theorem C8_counterexample :
    TrustedSetup.get_ptau_url 9 ≠ InitSetup.PTAU_URL_of 9 ∧
    TrustedSetup.get_ptau_filename 9 ≠ InitSetup.PTAU_FILENAME_of 9 := by
  constructor <;> decide

/-- C8 (amended): the two scripts' URL and filename constructions agree for
every exponent of at least 10 — in particular at the configured exponent
`NB_CONSTRAINTS_LOG2 = 24`, where the unpadded f-string constants of
`initialize_trusted_setup.py` equal the padded results of
`trusted_setup.py` — but not for single-digit exponents, where only
`trusted_setup.py` zero-pads. -/
theorem C8_ptau_identifier_agreement (n : Nat) (h : 10 ≤ n) :
    TrustedSetup.get_ptau_url n = InitSetup.PTAU_URL_of n ∧
    TrustedSetup.get_ptau_filename n = InitSetup.PTAU_FILENAME_of n ∧
    TrustedSetup.get_ptau_url InitSetup.NB_CONSTRAINTS_LOG2 = InitSetup.PTAU_URL ∧
    TrustedSetup.get_ptau_filename InitSetup.NB_CONSTRAINTS_LOG2 = InitSetup.PTAU_FILENAME := by
  have hp : TrustedSetup.pyFormat02d n = Nat.repr n := by
    simp [TrustedSetup.pyFormat02d, Nat.not_lt.mpr h]
  refine ⟨?_, ?_, by decide, by decide⟩
  · show TrustedSetup.PTAU_BASE_URL ++ ("/powersOfTau28_hez_final_" ++
      (TrustedSetup.pyFormat02d n ++ ".ptau")) = _
    rw [hp, ← String.append_assoc]
    rw [show TrustedSetup.PTAU_BASE_URL ++ "/powersOfTau28_hez_final_" =
      "https://storage.googleapis.com/zkevm/ptau/powersOfTau28_hez_final_" from by decide]
    rfl
  · show "powersOfTau28_hez_final_" ++ (TrustedSetup.pyFormat02d n ++ ".ptau") = _
    rw [hp]
    rfl

/-- C8 witness: the amended statement applied at the configured exponent. -/
theorem C8_witness :
    10 ≤ InitSetup.NB_CONSTRAINTS_LOG2 ∧
    TrustedSetup.get_ptau_url InitSetup.NB_CONSTRAINTS_LOG2 =
      InitSetup.PTAU_URL_of InitSetup.NB_CONSTRAINTS_LOG2 :=
  ⟨by decide, (C8_ptau_identifier_agreement InitSetup.NB_CONSTRAINTS_LOG2 (by decide)).1⟩

/-- C9: whenever the Go binary is absent, `build_binary` in
`initialize_trusted_setup.py` raises `TypeError`, because it calls this
script's `run_cmd` with a `cwd` keyword argument that helper does not
accept — so initialization can only complete when the binary was built
beforehand. -/
theorem C9_build_binary_raises_without_binary (goBuild : FS → FS) (fs : FS)
    (h : fsExists fs BINARY = false) :
    InitSetup.build_binary goBuild fs =
      .error (.typeError "run_cmd() got an unexpected keyword argument cwd") := by
  have hk : pyCallKwargsOk InitSetup.run_cmd_params ["cwd"] = false := by decide
  simp [InitSetup.build_binary, h, hk]

/-- C9 witness: the theorem applied at an empty filesystem. -/
theorem C9_witness :
    fsExists [] BINARY = false ∧
    InitSetup.build_binary id [] =
      .error (.typeError "run_cmd() got an unexpected keyword argument cwd") :=
  ⟨by decide, C9_build_binary_raises_without_binary id [] (by decide)⟩

/-- C3 counterexample: for expected contribution count N = 1, the
grant-issuance step of `main` in `initialize_trusted_setup.py` requests
`contribution_count + 1` presigned URLs and obtains 2 grants, not the
claimed exactly-N = 1. -/
theorem C3_counterexample :
    (InitSetup.main_issue_grants exGrant 1).map List.length = .ok 2 ∧ (2 : Nat) ≠ 1 := by
  exact ⟨rfl, by decide⟩

/-- C3 (amended): for every expected contribution count N ≥ 1,
`initialize_trusted_setup.py` issues exactly N + 1 grants with distinct
ascending indices `0..N` (the extra index-0 grant being reserved for the
coordinator's initial upload), while the e2e variant issues exactly N
grants with distinct ascending indices `0..N-1`. -/
theorem C3_grant_issuance_counts (grant : Nat → String) (N : Nat) (_hN : 1 ≤ N)
    (hwf : presignedWF grant (N + 1)) :
    (∃ L, InitSetup.main_issue_grants grant N = .ok L ∧ L.length = N + 1 ∧
      L.map Prod.fst = (List.range (N + 1)).map Int.ofNat) ∧
    (∃ L, E2E.main_issue_grants grant N = .ok L ∧ L.length = N ∧
      L.map Prod.fst = (List.range N).map Int.ofNat) := by
  have hwf2 : presignedWF grant N := fun i hi => hwf i (by omega)
  constructor
  · refine ⟨(List.range (N + 1)).map (fun i => (Int.ofNat i, grant i)), ?_, ?_, ?_⟩
    · exact generate_presigned_urls_wf grant (N + 1) hwf
    · simp
    · simp
  · refine ⟨(List.range N).map (fun i => (Int.ofNat i, grant i)), ?_, ?_, ?_⟩
    · exact generate_presigned_urls_wf grant N hwf2
    · simp
    · simp

/-- C3 witness: the amended statement applied at N = 1 with a concrete
grant shape. -/
theorem C3_witness :
    (1 : Nat) ≤ 1 ∧ presignedWF exGrant 2 ∧
    (∃ L, InitSetup.main_issue_grants exGrant 1 = .ok L ∧ L.length = 1 + 1 ∧
      L.map Prod.fst = (List.range (1 + 1)).map Int.ofNat) :=
  ⟨by decide, by decide, (C3_grant_issuance_counts exGrant 1 (by decide) (by decide)).1⟩

/-- C4 counterexample: for the single grant (0, url), `generate_messages`
in `initialize_trusted_setup.py` writes zero message files, not one per
grant — it skips index 0. -/
theorem C4_counterexample :
    (InitSetup.generate_messages "bucket" [((0 : Int), "https://u0")]).length ≠
      [((0 : Int), "https://u0")].length := by decide

/-- C4 (amended): `generate_messages` in `trusted_setup.py` writes exactly
one message file per grant, named `msg{index+1}.txt` and rendering
contributor number index + 1; the `initialize_trusted_setup.py` variant
instead skips the index-0 grant and writes one file per remaining grant,
named `msg{index}.txt` and rendering the grant's index itself, not
index + 1. -/
theorem C4_message_generation (bucket : String) (urls : List (Int × String)) :
    (TrustedSetup.generate_messages bucket urls).length = urls.length ∧
    (∀ i u, (i, u) ∈ urls →
      ("msg" ++ toString (i + 1) ++ ".txt",
        MESSAGE_TEMPLATE (toString (i + 1)) u bucket) ∈
        TrustedSetup.generate_messages bucket urls) ∧
    (InitSetup.generate_messages bucket urls).length =
      (urls.filter (fun p => p.1 != 0)).length ∧
    (∀ i u, (i, u) ∈ urls → i ≠ 0 →
      ("msg" ++ toString i ++ ".txt",
        MESSAGE_TEMPLATE (toString i) u bucket) ∈
        InitSetup.generate_messages bucket urls) ∧
    (∀ u, InitSetup.generate_messages bucket [((0 : Int), u)] = []) := by
  refine ⟨?_, ?_, ?_, ?_, ?_⟩
  · simp [TrustedSetup.generate_messages]
  · intro i u hm
    exact List.mem_map.mpr ⟨(i, u), hm, rfl⟩
  · simp [InitSetup.generate_messages]
  · intro i u hm hi
    refine List.mem_map.mpr ⟨(i, u), List.mem_filter.mpr ⟨hm, ?_⟩, rfl⟩
    simpa using hi
  · intro u
    rfl

/-- C4 witness: the amended statement applied to a concrete two-grant
list, exhibiting the `msg1.txt` message of the first grant. -/
theorem C4_witness :
    (((0 : Int), "https://u0") ∈ [((0 : Int), "https://u0"), ((1 : Int), "https://u1")]) ∧
    ("msg" ++ toString ((0 : Int) + 1) ++ ".txt",
      MESSAGE_TEMPLATE (toString ((0 : Int) + 1)) "https://u0" "bkt") ∈
      TrustedSetup.generate_messages "bkt"
        [((0 : Int), "https://u0"), ((1 : Int), "https://u1")] :=
  ⟨by decide,
   (C4_message_generation "bkt" [((0 : Int), "https://u0"), ((1 : Int), "https://u1")]).2.1
     0 "https://u0" (by decide)⟩

/-- C5: the e2e coordinator invokes `phase2_verify` on the recorded indices
in strictly ascending order `0, 1, …, N-1` (the order of the parsed grant
list), and — in the engine's transcript verification, modelled from the
spec — verifying an index before its predecessor has been verified is
rejected as a sequencing violation regardless of the contribution's
cryptographic validity. -/
theorem C5_verification_order :
    (∀ (grant : Nat → String) (n : Nat), presignedWF grant n →
      E2E.verify_calls grant n = .ok ((List.range n).map Int.ofNat)) ∧
    (∀ (verifiedCount i : Nat) (valid : Bool), verifiedCount < i →
      Engine.p2v verifiedCount i valid =
        .error (.runtimeError "sequencing violation: previous contribution not yet verified")) := by
  constructor
  · intro grant n h
    unfold E2E.verify_calls E2E.main_issue_grants
    rw [generate_presigned_urls_wf grant n h]
    simp [Except.map, List.map_map]
  · intro v i b hv
    simp [Engine.p2v, hv]

/-- C5 witness: three contributions with a concrete grant shape are
verified as 0, 1, 2 in order, and verifying index 1 with no index yet
verified is rejected even for a cryptographically valid contribution. -/
theorem C5_witness :
    presignedWF exGrant 3 ∧
    E2E.verify_calls exGrant 3 = .ok ((List.range 3).map Int.ofNat) ∧
    (0 : Nat) < 1 ∧
    Engine.p2v 0 1 true =
      .error (.runtimeError "sequencing violation: previous contribution not yet verified") :=
  ⟨by decide, C5_verification_order.1 exGrant 3 (by decide), by decide,
   C5_verification_order.2 0 1 true (by decide)⟩

theorem fsExists_cons_self (p v : String) (fs : FS) :
    fsExists ((p, v) :: fs) p = true := by
  simp [fsExists, List.lookup]

/-- C6: `phase1_import`, `phase2_init` and `download_ptau` in
`trusted_setup.py` are idempotent: when the target artifact already exists
the call returns with no engine invocation and no network fetch and the
filesystem — in particular the existing artifact's contents — unchanged;
consequently a second invocation right after a first (successful) one is
always such a no-op. -/
theorem C6_idempotent_skip (engineOut evalsOut fetched : String) (fs : FS)
    (ptau_path phase1_path circuit_path phase2_path evals_path : String)
    (log2 : Nat) (beacon_round : Int)
    (h1 : fsExists fs phase1_path = true)
    (h2 : fsExists fs phase2_path = true)
    (h3 : fsExists fs ptau_path = true) :
    TrustedSetup.phase1_import engineOut fs ptau_path phase1_path = (fs, []) ∧
    TrustedSetup.phase2_init engineOut evalsOut fs phase1_path circuit_path
        phase2_path evals_path beacon_round = .ok (fs, []) ∧
    TrustedSetup.download_ptau fetched fs ptau_path log2 = (fs, []) ∧
    (∀ fs0 : FS,
      TrustedSetup.phase1_import engineOut
          (TrustedSetup.phase1_import engineOut fs0 ptau_path phase1_path).1
          ptau_path phase1_path =
        ((TrustedSetup.phase1_import engineOut fs0 ptau_path phase1_path).1, [])) ∧
    (∀ fs0 : FS,
      TrustedSetup.download_ptau fetched
          (TrustedSetup.download_ptau fetched fs0 ptau_path log2).1 ptau_path log2 =
        ((TrustedSetup.download_ptau fetched fs0 ptau_path log2).1, [])) ∧
    (∀ (fs0 fs1 : FS) (cmds : List (List String)),
      TrustedSetup.phase2_init engineOut evalsOut fs0 phase1_path circuit_path
          phase2_path evals_path beacon_round = .ok (fs1, cmds) →
      TrustedSetup.phase2_init engineOut evalsOut fs1 phase1_path circuit_path
          phase2_path evals_path beacon_round = .ok (fs1, [])) := by
  refine ⟨?_, ?_, ?_, ?_, ?_, ?_⟩
  · simp [TrustedSetup.phase1_import, h1]
  · simp [TrustedSetup.phase2_init, h2]
  · simp [TrustedSetup.download_ptau, h3]
  · intro fs0
    by_cases hc : fsExists fs0 phase1_path = true
    · simp [TrustedSetup.phase1_import, hc]
    · have hc' : fsExists fs0 phase1_path = false := by simpa using hc
      simp [TrustedSetup.phase1_import, hc', fsExists_cons_self]
  · intro fs0
    by_cases hc : fsExists fs0 ptau_path = true
    · simp [TrustedSetup.download_ptau, hc]
    · have hc' : fsExists fs0 ptau_path = false := by simpa using hc
      simp [TrustedSetup.download_ptau, hc', fsExists_cons_self]
  · intro fs0 fs1 cmds h
    by_cases hc : fsExists fs0 phase2_path = true
    · rw [TrustedSetup.phase2_init, if_pos hc] at h
      simp only [Except.ok.injEq, Prod.mk.injEq] at h
      obtain ⟨hfs, -⟩ := h
      subst hfs
      simp [TrustedSetup.phase2_init, hc]
    · have hc' : fsExists fs0 phase2_path = false := by simpa using hc
      rw [TrustedSetup.phase2_init] at h
      simp only [hc', Bool.false_eq_true, if_false] at h
      by_cases hb : beacon_round ≤ 0
      · simp [hb] at h
      · simp only [hb, if_false] at h
        simp only [Except.ok.injEq, Prod.mk.injEq] at h
        obtain ⟨hfs, -⟩ := h
        subst hfs
        simp [TrustedSetup.phase2_init, fsExists_cons_self]

/-- C6 witness: the skip behaviour applied to a filesystem already holding
all three artifacts. -/
theorem C6_witness :
    fsExists [("pt", "x"), ("p1", "y"), ("p2", "z")] "p1" = true ∧
    TrustedSetup.phase1_import "eo" [("pt", "x"), ("p1", "y"), ("p2", "z")] "pt" "p1" =
      ([("pt", "x"), ("p1", "y"), ("p2", "z")], []) :=
  ⟨by decide,
   (C6_idempotent_skip "eo" "evo" "fetched" [("pt", "x"), ("p1", "y"), ("p2", "z")]
      "pt" "p1" "circ" "p2" "ev" 9 1000 (by decide) (by decide) (by decide)).1⟩

/-- The e2e verification loop over indices `s, …, s+n-1`: with the engine
succeeding below index `k` and failing at `k`, the loop performs exactly
the verifications `s..k` and stops with the `RuntimeError` message. -/
theorem verifyWalk_halts (exitCode : Int → Int) :
    ∀ (n s k : Nat), s ≤ k → k < s + n →
    (∀ j : Nat, s ≤ j → j < k → exitCode (Int.ofNat j) = 0) →
    exitCode (Int.ofNat k) ≠ 0 →
    E2E.verifyWalk exitCode ((List.range' s n).map Int.ofNat) =
      ((List.range' s (k + 1 - s)).map Int.ofNat,
        some ("Command failed with exit code " ++ toString (exitCode (Int.ofNat k)))) := by
  intro n
  induction n with
  | zero => intro s k h1 h2 _ _; omega
  | succ m ih =>
    intro s k h1 h2 hok hf
    rw [List.range'_succ, List.map_cons]
    by_cases hsk : s = k
    · subst hsk
      have hb : (exitCode (Int.ofNat s) != 0) = true := by simpa using hf
      have hr : s + 1 - s = 1 := by omega
      simp only [E2E.verifyWalk, hb, if_true, hr]
      rfl
    · have hlt : s < k := by omega
      have h0 : (exitCode (Int.ofNat s) != 0) = false := by
        rw [hok s le_rfl hlt]
        rfl
      simp only [E2E.verifyWalk, h0, Bool.false_eq_true, if_false]
      rw [ih (s + 1) k (by omega) (by omega)
        (fun j hj1 hj2 => hok j (by omega) hj2) hf]
      have hr : k + 1 - s = (k + 1 - (s + 1)) + 1 := by omega
      rw [hr, List.range'_succ, List.map_cons]

/-- C7: when the engine reports a non-zero exit for the verification of
index k (and indices below k verify cleanly), the e2e run performs exactly
the verifications `0..k` — never any later index — and the run ends with
exit status 1 carrying the `RuntimeError` cause. -/
theorem C7_halt_on_first_failure (exitCode : Int → Int) (N k : Nat)
    (hk : k < N) (hfail : exitCode (Int.ofNat k) ≠ 0)
    (hok : ∀ j : Nat, j < k → exitCode (Int.ofNat j) = 0) :
    E2E.verifyWalk exitCode ((List.range N).map Int.ofNat) =
      ((List.range (k + 1)).map Int.ofNat,
        some ("Command failed with exit code " ++ toString (exitCode (Int.ofNat k)))) ∧
    E2E.runStatus (E2E.verifyWalk exitCode ((List.range N).map Int.ofNat)).2 = 1 := by
  have h := verifyWalk_halts exitCode N 0 k (by omega) (by omega)
    (fun j _ hj => hok j hj) hfail
  rw [List.range_eq_range', List.range_eq_range']
  have h' : E2E.verifyWalk exitCode ((List.range' 0 N).map Int.ofNat) =
      ((List.range' 0 (k + 1)).map Int.ofNat,
        some ("Command failed with exit code " ++ toString (exitCode (Int.ofNat k)))) := by
    simpa using h
  exact ⟨h', by rw [h']; rfl⟩


/-- A concrete engine exit-code oracle failing exactly at index 1. -/
def exExit : Int → Int := fun i => if i = 1 then 1 else 0

/-- C7 witness: with three contributions and the engine failing at index 1,
only indices 0 and 1 are verified and the run fails. -/
theorem C7_witness :
    (1 : Nat) < 3 ∧ exExit (Int.ofNat 1) ≠ 0 ∧
    E2E.verifyWalk exExit ((List.range 3).map Int.ofNat) =
      ((List.range (1 + 1)).map Int.ofNat,
        some ("Command failed with exit code " ++ toString (exExit (Int.ofNat 1)))) :=
  ⟨by decide, by decide,
   (C7_halt_on_first_failure exExit 3 1 (by decide) (by decide) (by decide)).1⟩

/-- The scan loop of `phase2_contribute` agrees with a first-match
characterisation: it returns the parsed hash of the first line containing
the marker, and the `RuntimeError` when there is none. -/
theorem parseContributionHash_find (lines : List String) :
    TrustedSetup.parseContributionHash lines =
      match lines.find? (fun l => pyContains "Contribution Hash:" l) with
      | some line => .ok (TrustedSetup.afterLastColon line)
      | none => .error (.runtimeError "Could not find contribution hash in output") := by
  induction lines with
  | nil => rfl
  | cons l rest ih =>
    by_cases hc : pyContains "Contribution Hash:" l = true
    · simp [TrustedSetup.parseContributionHash, List.find?_cons_of_pos, hc]
    · have hc' : pyContains "Contribution Hash:" l = false := by simpa using hc
      simp [TrustedSetup.parseContributionHash, List.find?_cons_of_neg, hc', ih]

/-- C10: on a successful engine exit (code 0), `phase2_contribute` returns
the text after the last `:` of the first stdout line containing
`"Contribution Hash:"`, stripped of surrounding whitespace
(`afterLastColon` embeds `line.split(":")[-1].strip()`), and raises
`RuntimeError` when no stdout line contains that marker even though the
command itself succeeded. -/
theorem C10_contribution_hash_parse (lines : List String) :
    (∀ line, lines.find? (fun l => pyContains "Contribution Hash:" l) = some line →
      TrustedSetup.phase2_contribute 0 lines = .ok (TrustedSetup.afterLastColon line)) ∧
    (lines.find? (fun l => pyContains "Contribution Hash:" l) = none →
      TrustedSetup.phase2_contribute 0 lines =
        .error (.runtimeError "Could not find contribution hash in output")) := by
  have h := parseContributionHash_find lines
  constructor
  · intro line hl
    show TrustedSetup.parseContributionHash lines = _
    rw [h, hl]
  · intro hl
    show TrustedSetup.parseContributionHash lines = _
    rw [h, hl]

/-- C10 witness: a concrete engine stdout whose second line carries the
hash; the parsed result is the stripped text after the line's last colon. -/
theorem C10_witness :
    (["setup ok", " - Contribution Hash: abc123 ", "tail"].find?
        (fun l => pyContains "Contribution Hash:" l) =
      some " - Contribution Hash: abc123 ") ∧
    TrustedSetup.phase2_contribute 0 ["setup ok", " - Contribution Hash: abc123 ", "tail"] =
      .ok (TrustedSetup.afterLastColon " - Contribution Hash: abc123 ") ∧
    TrustedSetup.afterLastColon " - Contribution Hash: abc123 " = "abc123" :=
  ⟨by decide,
   (C10_contribution_hash_parse ["setup ok", " - Contribution Hash: abc123 ", "tail"]).1
     " - Contribution Hash: abc123 " (by decide),
   by decide⟩
